import Mathlib

/-!
Verification of the quote-verification engine of this repository.

The development shallowly embeds the two implementations of the engine:

* the multi-step workflow (steps `searchQuotes`, `collectQuotes`,
  `verifyQuote`, `generateVerificationReport`), and
* the single tool `verifyAnimeQuoteTool` together with its response
  parsers (`parseApiResponse` and the parsing inside
  `getQuotesByCharacterTool`).

Network I/O is abstracted by an explicit fetch-outcome parameter; the
JavaScript dynamic values handled by the tool's shape-sniffing parsers
are embedded by a small JSON model with explicit `undefined`,
truthiness, and throwing property access.
-/

namespace DooshenStudy

/-- One attributed quotation record `{quote, anime, character}`, as carried
between the workflow steps (the inter-step zod schemas force the three
fields to be strings). -/
structure QuoteRecord where
  quote : String
  anime : String
  character : String
deriving DecidableEq, Repr

/-- The three match classifications of the workflow's verify step.
`part` embeds the source's string literal for a substring match,
`similar` its word-overlap match. -/
inductive MatchType where
  | exact
  | part
  | similar
deriving DecidableEq, Repr

/-- The three confidence levels `high`, `medium`, `low`. -/
inductive Confidence where
  | high
  | medium
  | low
deriving DecidableEq, Repr

/-- One entry of the verify step's match list: the matched record's fields
spread together with the assigned classification. -/
structure MatchEntry where
  quote : String
  anime : String
  character : String
  matchType : MatchType
deriving DecidableEq, Repr

/-- The verify step's output record (the pass-through `quote`, `character`
and `anime` fields are dropped; the verdict fields are kept). -/
structure WfVerdict where
  verified : Bool
  confidence : Confidence
  «matches» : List MatchEntry
  message : String
deriving DecidableEq, Repr

/-- JavaScript truthiness of an optional string input: a missing field and
the empty string are both falsy (`if (inputData.character)`). -/
def optTruthy : Option String → Bool
  | none => false
  | some s => s ≠ ""

/-- Embedding of JavaScript `s.toLowerCase()` on the ASCII strings of this
engine, implemented by structural recursion over the character list. -/
def jsToLower (s : String) : String :=
  ⟨s.data.map Char.toLower⟩

/-- Embedding of JavaScript `s.trim()`: remove leading and trailing
whitespace, implemented by structural recursion over the character list. -/
def jsTrim (s : String) : String :=
  ⟨((s.data.dropWhile Char.isWhitespace).reverse.dropWhile Char.isWhitespace).reverse⟩

/-- Normalization applied by the matcher to the query and to every
candidate: `text.toLowerCase().trim()`. -/
def jsNormalize (s : String) : String :=
  jsTrim (jsToLower s)

/-- Accumulating splitter behind `splitWs`: cut the character list at
whitespace runs, collecting the current word in reverse. -/
def wordsAux : List Char → List Char → List String
  | [], cur => if cur.isEmpty then [] else [⟨cur.reverse⟩]
  | c :: rest, cur =>
    if c.isWhitespace then
      if cur.isEmpty then wordsAux rest [] else ⟨cur.reverse⟩ :: wordsAux rest []
    else
      wordsAux rest (c :: cur)

/-- Embedding of the JavaScript `s.split(/\s+/)` applied to the
already-trimmed strings of the matcher: splitting the empty string
yields `[""]`, and splitting a non-empty trimmed string yields its
maximal runs of non-whitespace characters. -/
def splitWs (s : String) : List String :=
  if s = "" then [""] else wordsAux s.data []

/-- Character-list test that `needle` starts `hay`. -/
def startsWithCh : List Char → List Char → Bool
  | [], _ => true
  | _ :: _, [] => false
  | a :: as, b :: bs => a = b && startsWithCh as bs

/-- Character-list test that `needle` occurs contiguously in `hay`. -/
def inclCh (needle : List Char) : List Char → Bool
  | [] => needle.isEmpty
  | c :: rest => startsWithCh needle (c :: rest) || inclCh needle rest

/-- Embedding of JavaScript `s.includes(t)`: `t` occurs in `s` as a
contiguous substring (the empty string occurs in every string). -/
def jsIncludes (s t : String) : Bool :=
  inclCh t.data s.data

/-- Classification of one candidate against the normalized query, from the
loop body of the workflow's `verifyQuote` step: the candidate text is
lower-cased and trimmed, then the first applicable rule of
exact / partial-substring / word-overlap wins, and `none` is returned
when no rule applies.  The source compares `similarity >= 0.5` with
`similarity = intersection.size / union.size` as a float; that comparison
is exact at these magnitudes and (for non-zero union) equivalent to
`2 * intersection.size >= union.size`, the form used here; when the union
is empty the float is `NaN` and the source condition is false, and here
the `> 2` size conditions are false as well, so the branch agrees
(`spec_similar_rule_iff_classify` below relates this form to the literal
ratio). -/
def classify (quoteToVerify : String) (candQuote : String) : Option MatchType :=
  let quoteText := jsNormalize candQuote
  if quoteText = quoteToVerify then
    some MatchType.exact
  else if jsIncludes quoteText quoteToVerify || jsIncludes quoteToVerify quoteText then
    some MatchType.part
  else
    let quoteWords := (splitWs quoteText).toFinset
    let verifyWords := (splitWs quoteToVerify).toFinset
    let inter := quoteWords ∩ verifyWords
    let union := quoteWords ∪ verifyWords
    if 2 * inter.card ≥ union.card ∧ quoteWords.card > 2 ∧ verifyWords.card > 2 then
      some MatchType.similar
    else
      none

/-- One insertion into a JavaScript `Map` keyed by quote text: an existing
key keeps its position but its value is replaced; a new key is appended. -/
def mapInsert (entries : List (String × QuoteRecord)) (k : String) (v : QuoteRecord) :
    List (String × QuoteRecord) :=
  if entries.any (fun e => e.1 = k) then
    entries.map (fun e => if e.1 = k then (k, v) else e)
  else
    entries ++ [(k, v)]

/-- Embedding of `Array.from(new Map(allQuotes.map(q => [q.quote, q])).values())`:
keys in order of first occurrence, each mapped to the last record bearing
that quote text. -/
def dedupByQuote (l : List QuoteRecord) : List QuoteRecord :=
  (l.foldl (fun m q => mapInsert m q.quote q) []).map (fun e => e.2)

/-- The verify step's full match list: every deduplicated candidate that
receives a classification, in candidate order. -/
def matchList (q : String) (allQuotes : List QuoteRecord) : List MatchEntry :=
  let quoteToVerify := jsNormalize q
  (dedupByQuote allQuotes).filterMap (fun r =>
    (classify quoteToVerify r.quote).map (fun mt =>
      { quote := r.quote, anime := r.anime, character := r.character, matchType := mt }))

/-- The not-found message of the workflow's `verifyQuote` step, shared by
its two no-match branches. -/
def quoteNotFoundMessage : String :=
  "Quote not found in the database. The quote may not exist, or the character/anime name might be slightly different."

/-- Embedding of the workflow step `verifyQuote`: classify every
deduplicated candidate, then reduce the match list to a verdict by the
exact / partial / similar / no-match decision chain; the returned match
list is `matches.slice(0, 5)`. -/
def verifyQuoteStep (q : String) (allQuotes : List QuoteRecord) : WfVerdict :=
  let «matches» := matchList q allQuotes
  let exactMatches := «matches».filter (fun m => m.matchType = MatchType.exact)
  let partMatches := «matches».filter (fun m => m.matchType = MatchType.part)
  if exactMatches.length > 0 then
    { verified := true, confidence := Confidence.high, «matches» := «matches».take 5,
      message := "Quote verified! Found " ++ toString exactMatches.length ++ " exact match(es)." }
  else if partMatches.length > 0 then
    { verified := true, confidence := Confidence.medium, «matches» := «matches».take 5,
      message := "Quote likely verified. Found " ++ toString partMatches.length ++
        " partial match(es) - the quote may have slight variations." }
  else if «matches».length > 0 then
    { verified := true, confidence := Confidence.low, «matches» := «matches».take 5,
      message := "Found " ++ toString «matches».length ++ " similar quote(s), but not an exact match." }
  else
    { verified := false,
      confidence := if allQuotes.length > 0 then Confidence.high else Confidence.medium,
      «matches» := «matches».take 5,
      message := quoteNotFoundMessage }

/-- Stated from the spec's matcher wording, for comparison with the
source-derived `classify`: rule 1, the normalized candidate text equals
the normalized query text. -/
def specExactRule (query cand : String) : Prop :=
  jsNormalize cand = jsNormalize query

/-- Spec matcher rule 2: one normalized string contains the other as a
substring, in either direction. -/
def specPartRule (query cand : String) : Prop :=
  jsIncludes (jsNormalize cand) (jsNormalize query) = true ∨
    jsIncludes (jsNormalize query) (jsNormalize cand) = true

/-- Spec matcher rule 3, written literally as the spec's rational ratio:
the Jaccard-style overlap `|intersection| / |union|` of the
whitespace-split word sets is at least `0.5` and both word sets contain
more than 2 words. -/
def specSimilarRule (query cand : String) : Prop :=
  (((splitWs (jsNormalize cand)).toFinset ∩ (splitWs (jsNormalize query)).toFinset).card : ℚ) /
      (((splitWs (jsNormalize cand)).toFinset ∪ (splitWs (jsNormalize query)).toFinset).card : ℚ) ≥
    1/2 ∧
  (splitWs (jsNormalize cand)).toFinset.card > 2 ∧
  (splitWs (jsNormalize query)).toFinset.card > 2

/-- Outcome of one upstream HTTP lookup as seen by a workflow step's
try-block: the fetch (or `response.json()`, or the subsequent `.map`)
threw, or the response was not ok, or it succeeded and mapped to a list
of records. -/
inductive WfFetch where
  | netThrow
  | notOk
  | ok (records : List QuoteRecord)
deriving DecidableEq, Repr

/-- A failed lookup: a thrown network/JSON-parse error or a non-2xx
response. -/
def WfFetch.failed : WfFetch → Prop
  | .netThrow => True
  | .notOk => True
  | .ok _ => False

/-- Embedding of the workflow step `searchQuotes`: when a character is
supplied, its lookup result (with both failure modes swallowed by the
step's try/catch, leaving the empty list); otherwise no lookup at all. -/
def searchQuotesStep (character : Option String) (f : WfFetch) : List QuoteRecord :=
  if optTruthy character then
    match f with
    | .netThrow => []
    | .notOk => []
    | .ok records => records
  else
    []

/-- The merge loop of the workflow step `collectQuotes`: starting from the
character-sourced list, append each anime-sourced record whose text is
not in `existingQuotes` — a set computed once from the character-sourced
list and never updated during the loop. -/
def collectMerge (allQuotes0 animeQuotes : List QuoteRecord) : List QuoteRecord :=
  let existingQuotes := allQuotes0.map (fun q => q.quote)
  animeQuotes.foldl
    (fun allQuotes q => if q.quote ∈ existingQuotes then allQuotes else allQuotes ++ [q])
    allQuotes0

/-- Embedding of the workflow step `collectQuotes`: when an anime is
supplied, merge its lookup result into the character-sourced list (with
both failure modes swallowed by the try/catch, leaving the list as it
was); otherwise pass the character-sourced list through. -/
def collectQuotesStep (characterQuotes : List QuoteRecord) (anime : Option String)
    (f : WfFetch) : List QuoteRecord :=
  if optTruthy anime then
    match f with
    | .netThrow => characterQuotes
    | .notOk => characterQuotes
    | .ok records => collectMerge characterQuotes records
  else
    characterQuotes

/-- JSON values as produced by `response.json()`. -/
inductive Json where
  | jnull
  | jbool (b : Bool)
  | jnum (n : Int)
  | jstr (s : String)
  | jarr (items : List Json)
  | jobj (fields : List (String × Json))

/-- A JavaScript value flowing through the tool's parsers: a JSON value or
`undefined` (a missing object property). -/
inductive JVal where
  | undefined
  | json (j : Json)

/-- JavaScript truthiness: `undefined`, `null`, `false`, `0` and the empty
string are falsy; every other value (including empty arrays and objects)
is truthy. -/
def truthy : JVal → Bool
  | .undefined => false
  | .json .jnull => false
  | .json (.jbool b) => b
  | .json (.jnum n) => n ≠ 0
  | .json (.jstr s) => s ≠ ""
  | .json (.jarr _) => true
  | .json (.jobj _) => true

/-- JavaScript property access `v.name`: a thrown TypeError on `undefined`
and `null`, the named field of an object (or `undefined` when absent),
and `undefined` on every other value (none of the names this code reads
is a built-in property of primitives or arrays). -/
def getProp : JVal → String → Except String JVal
  | .undefined, name =>
    .error ("TypeError: Cannot read properties of undefined (reading " ++ name ++ ")")
  | .json .jnull, name =>
    .error ("TypeError: Cannot read properties of null (reading " ++ name ++ ")")
  | .json (.jobj fields), name =>
    match fields.lookup name with
    | some v => .ok (.json v)
    | none => .ok .undefined
  | .json _, _ => .ok .undefined

/-- JavaScript optional chaining `v?.name`: `undefined` when `v` is
`undefined` or `null`, otherwise plain property access.  On a base that
is known non-null and non-undefined this coincides with `getProp`, and
the embedding also uses it for plain accesses appearing under a guard
that has already excluded null (`getProp_ok` makes this precise). -/
def optChain : JVal → String → JVal
  | .undefined, _ => .undefined
  | .json .jnull, _ => .undefined
  | .json (.jobj fields), name =>
    match fields.lookup name with
    | some v => .json v
    | none => .undefined
  | .json _, _ => .undefined

/-- JavaScript `a || b`. -/
def jsOr (a b : JVal) : JVal :=
  if truthy a then a else b

/-- JavaScript `typeof v === 'object'` (true for objects, arrays and
null). -/
def isObjectType : JVal → Bool
  | .json .jnull => true
  | .json (.jarr _) => true
  | .json (.jobj _) => true
  | _ => false

/-- JavaScript `'name' in v` for the values this code applies it to
(guarded by a `typeof === 'object'` check; `status` is never an own
property of an array). -/
def hasProp : JVal → String → Bool
  | .json (.jobj fields), name => (fields.lookup name).isSome
  | _, _ => false

/-- JavaScript `typeof v === 'string'`. -/
def isString : JVal → Bool
  | .json (.jstr _) => true
  | _ => false

/-- One quote record as built by the verify tool's parsers: the fields
hold whatever JavaScript values the object literals produced
(`item.content` may be `undefined` or empty — the `'Unknown'` fallback
is applied only where the source writes one). -/
structure ToolQuote where
  quote : JVal
  anime : JVal
  character : JVal

/-- Monadic map over `Except`, failing at the first thrown element: the
semantics of a JavaScript `.map` whose callback may throw. -/
def mapE {α β : Type} (f : α → Except String β) : List α → Except String (List β)
  | [] => .ok []
  | a :: as => do
    let b ← f a
    let rest ← mapE f as
    pure (b :: rest)

/-- Monadic filter over `Except`, failing at the first thrown predicate
call: the semantics of a JavaScript `.filter` whose callback may throw. -/
def filterE {α : Type} (p : α → Except String Bool) : List α → Except String (List α)
  | [] => .ok []
  | a :: as => do
    let b ← p a
    let rest ← filterE p as
    pure (if b then a :: rest else rest)

/-- One item of the wrapper-shape `data` array as mapped by the verify
tool's `parseApiResponse`: `{quote: item.content, anime:
item.anime?.name || item.anime?.altName || 'Unknown', character:
item.character?.name || 'Unknown'}` (a null item throws at the first
access). -/
def parseWrapperItem (item : Json) : Except String ToolQuote := do
  let content ← getProp (.json item) "content"
  let animeF ← getProp (.json item) "anime"
  let characterF ← getProp (.json item) "character"
  pure
    { quote := content,
      anime := jsOr (optChain animeF "name")
        (jsOr (optChain animeF "altName") (.json (.jstr "Unknown"))),
      character := jsOr (optChain characterF "name") (.json (.jstr "Unknown")) }

/-- One item of a bare-array response as mapped by the verify tool's
`parseApiResponse` (and identically by the array branch of the
by-character tool): `{quote: quote.quote || quote.content, anime: typeof
quote.anime === 'string' ? quote.anime : quote.anime?.name || 'Unknown',
character: likewise}`.  The source short-circuits `quote.content` when
`quote.quote` is truthy; both accesses throw only on a null item, where
the first throws already, so the eager form is extensionally equal. -/
def parseArrayItem (item : Json) : Except String ToolQuote := do
  let q1 ← getProp (.json item) "quote"
  let q2 ← getProp (.json item) "content"
  let animeF ← getProp (.json item) "anime"
  let characterF ← getProp (.json item) "character"
  pure
    { quote := jsOr q1 q2,
      anime := if isString animeF then animeF
        else jsOr (optChain animeF "name") (.json (.jstr "Unknown")),
      character := if isString characterF then characterF
        else jsOr (optChain characterF "name") (.json (.jstr "Unknown")) }

/-- The verify tool's response parser `parseApiResponse`: the wrapper
shape when the value is a truthy object with a truthy `status` own
property and a truthy `data` (throwing, as `.map` does, when that `data`
is not an array), the bare-array shape for arrays, and the silent empty
list for every other shape. -/
def parseApiResponse (apiResponse : JVal) : Except String (List ToolQuote) :=
  if truthy apiResponse && isObjectType apiResponse && hasProp apiResponse "status" &&
      truthy (optChain apiResponse "status") && truthy (optChain apiResponse "data") then
    match optChain apiResponse "data" with
    | .json (.jarr items) => mapE parseWrapperItem items
    | _ => .error "TypeError: apiResponse.data.map is not a function"
  else
    match apiResponse with
    | .json (.jarr items) => mapE parseArrayItem items
    | _ => .ok []

/-- One item of the wrapper-shape `data` array inside
`getQuotesByCharacterTool`: `{quote: item.content, anime:
item.anime.name || item.anime.altName || 'Unknown', character:
item.character.name}` — plain accesses with no optional chaining and no
`'Unknown'` fallback on the character name.  `item.anime.altName` is
short-circuited by the source when `.name` is truthy; once `.name`
succeeded the base cannot be null, so the eager form is extensionally
equal. -/
def charToolParseItemWrapper (item : Json) : Except String ToolQuote := do
  let content ← getProp (.json item) "content"
  let animeF ← getProp (.json item) "anime"
  let animeName ← getProp animeF "name"
  let animeAlt ← getProp animeF "altName"
  let characterF ← getProp (.json item) "character"
  let characterName ← getProp characterF "name"
  pure
    { quote := content,
      anime := jsOr animeName (jsOr animeAlt (.json (.jstr "Unknown"))),
      character := characterName }

/-- The response parsing of `getQuotesByCharacterTool`: the wrapper branch
guarded only by `apiResponse.status && apiResponse.data` (plain accesses,
throwing on a null body), the bare-array branch next, and otherwise the
visible thrown error `Unexpected API response format`. -/
def charToolParse (apiResponse : Json) : Except String (List ToolQuote) := do
  let status ← getProp (.json apiResponse) "status"
  if truthy status then
    let dataF ← getProp (.json apiResponse) "data"
    if truthy dataF then
      match dataF with
      | .json (.jarr items) => mapE charToolParseItemWrapper items
      | _ => .error "TypeError: apiResponse.data.map is not a function"
    else
      match apiResponse with
      | .jarr items => mapE parseArrayItem items
      | _ => .error "Unexpected API response format"
  else
    match apiResponse with
    | .jarr items => mapE parseArrayItem items
    | _ => .error "Unexpected API response format"

/-- A response body matching none of the shapes known to the by-character
parser: not null (a null body throws a TypeError before any shape
detection), not an array, and without truthy `status` and `data`
properties. -/
def unknownShape (body : Json) : Bool :=
  match body with
  | .jnull => false
  | .jarr _ => false
  | _ => !(truthy (optChain (.json body) "status") && truthy (optChain (.json body) "data"))

/-- The verify tool's input context: every field optional, and the empty
string falsy at each `if (context.x)` check. -/
structure VerifyContext where
  quote : Option String
  character : Option String
  anime : Option String
deriving DecidableEq, Repr

/-- Outcome of one `fetch` performed by the verify tool: the fetch or
`response.json()` threw (with the error's message), or the response was
not ok, or a JSON body was obtained. -/
inductive FetchOutcome where
  | netThrow (msg : String)
  | notOk
  | ok (body : Json)

/-- The verify tool's quote-gathering strategy: search by character when
one is given (`response.ok` guarding the parse, a thrown fetch
propagating to the tool's catch), then by anime only when no quotes were
found by character. -/
def gatherQuotes (ctx : VerifyContext) (charF animeF : FetchOutcome) :
    Except String (List ToolQuote) := do
  let quotes : List ToolQuote := []
  let quotes ←
    if optTruthy ctx.character then
      match charF with
      | .netThrow msg => throw msg
      | .notOk => pure quotes
      | .ok body => parseApiResponse (.json body)
    else
      pure quotes
  let quotes ←
    if quotes.length = 0 && optTruthy ctx.anime then
      match animeF with
      | .netThrow msg => throw msg
      | .notOk => pure quotes
      | .ok body => parseApiResponse (.json body)
    else
      pure quotes
  pure quotes

/-- JavaScript `v.toLowerCase()`: defined on strings, a thrown TypeError
on every other value. -/
def jsToLowerJV : JVal → Except String String
  | .json (.jstr s) => .ok (jsToLower s)
  | _ => .error "TypeError: q.quote.toLowerCase is not a function"

/-- The verify tool's output verdict. -/
structure ToolVerdict where
  verified : Bool
  confidence : Confidence
  «matches» : List ToolQuote
  message : String

/-- The verify tool's shared no-match verdict: high confidence when a
quote text was supplied, medium otherwise. -/
def toolNotFound (ctx : VerifyContext) : ToolVerdict :=
  { verified := false,
    confidence := if optTruthy ctx.quote then Confidence.high else Confidence.medium,
    «matches» := [],
    message := "Quote not found in the database. It may not exist, or the character/anime name might be slightly different." }

/-- The verify tool's match test against one gathered quote: two-way
substring containment between the lower-cased (but untrimmed) candidate
text and the normalized query text; `toLowerCase` throws when the
candidate's quote field is not a string. -/
def toolMatchPred (quoteText : String) (q : ToolQuote) : Except String Bool := do
  let ql ← jsToLowerJV q.quote
  pure (jsIncludes ql quoteText || jsIncludes quoteText ql)

/-- The verify tool's verdict composition over the gathered quotes: with a
quote text, keep every quote passing `toolMatchPred` and return all of
them at high confidence; with no quote text, return the first ten
gathered quotes at medium confidence; otherwise the shared not-found
verdict. -/
def composeToolVerdict (ctx : VerifyContext) (quotes : List ToolQuote) :
    Except String ToolVerdict := do
  if optTruthy ctx.quote then
    let quoteText := jsNormalize (ctx.quote.getD "")
    let matching ← filterE (toolMatchPred quoteText) quotes
    if matching.length > 0 then
      pure
        { verified := true, confidence := Confidence.high,
          «matches» := matching.map (fun q => ToolQuote.mk q.quote q.anime q.character),
          message := "Quote verified! Found " ++ toString matching.length ++
            " matching quote(s)." }
    else
      pure (toolNotFound ctx)
  else
    if quotes.length > 0 then
      pure
        { verified := true, confidence := Confidence.medium,
          «matches» := (quotes.take 10).map (fun q => ToolQuote.mk q.quote q.anime q.character),
          message := "Found " ++ toString quotes.length ++
            " quote(s) for the specified criteria." }
    else
      pure (toolNotFound ctx)

/-- The body of the verify tool's try block. -/
def runToolPipeline (ctx : VerifyContext) (charF animeF : FetchOutcome) :
    Except String ToolVerdict := do
  let quotes ← gatherQuotes ctx charF animeF
  composeToolVerdict ctx quotes

/-- Embedding of `verifyAnimeQuoteTool.execute`: the all-empty input guard
first, then the try block, whose thrown errors are caught and mapped to
the low-confidence error verdict. -/
def verifyTool (ctx : VerifyContext) (charF animeF : FetchOutcome) : ToolVerdict :=
  if !optTruthy ctx.quote && !optTruthy ctx.character && !optTruthy ctx.anime then
    { verified := false, confidence := Confidence.low, «matches» := [],
      message := "Cannot verify: Please provide at least a quote, character, or anime name." }
  else
    match runToolPipeline ctx charF animeF with
    | .ok v => v
    | .error e =>
      { verified := false, confidence := Confidence.low, «matches» := [],
        message := "Error during verification: " ++ e }

/-- The verify step's full output record, input of the report step. -/
structure VerifyOutput where
  quote : String
  verified : Bool
  confidence : Confidence
  «matches» : List MatchEntry
  message : String
  character : Option String
  anime : Option String
deriving DecidableEq, Repr

/-- The workflow's final output. -/
structure ReportOutput where
  verified : Bool
  confidence : Confidence
  «matches» : List MatchEntry
  report : String
deriving DecidableEq, Repr

/-- The `VERIFIED`/`NOT VERIFIED` status text of the report prompt. -/
def statusText (verified : Bool) : String :=
  if verified then "VERIFIED" else "NOT VERIFIED"

/-- `confidence.toUpperCase()` as used in the report prompt. -/
def confidenceUpper : Confidence → String
  | .high => "HIGH"
  | .medium => "MEDIUM"
  | .low => "LOW"

/-- The `matchType` literals as serialized into the report prompt. -/
def matchTypeText : MatchType → String
  | .exact => "exact"
  | .part => "partial"
  | .similar => "similar"

/-- One numbered entry of the prompt's `Matching Quotes Found` block. -/
def matchBlockEntry (i : Nat) (m : MatchEntry) : String :=
  toString (i + 1) ++ ". \"" ++ m.quote ++ "\"\n   - Character: " ++ m.character ++
    "\n   - Anime: " ++ m.anime ++ "\n   - Match Type: " ++ matchTypeText m.matchType

/-- The context lines of the report prompt. -/
def contextText (character anime : Option String) : String :=
  (if optTruthy character then "Character: " ++ character.getD "" ++ "\n" else "") ++
    (if optTruthy anime then "Anime: " ++ anime.getD "" ++ "\n" else "")

/-- The prompt assembled by the report step. -/
def buildReportPrompt (v : VerifyOutput) : String :=
  "Create a comprehensive verification report for the following anime quote verification:\n\n" ++
    contextText v.character v.anime ++
    "\nQuote to verify: \"" ++ v.quote ++ "\"\n\nVerification Result:\n- Status: " ++
    statusText v.verified ++ "\n- Confidence: " ++ confidenceUpper v.confidence ++
    "\n- Message: " ++ v.message ++ "\n\n" ++
    (if v.«matches».length > 0 then
      "\nMatching Quotes Found:\n" ++
        String.intercalate "\n\n" (v.«matches».enum.map (fun p => matchBlockEntry p.1 p.2))
    else "") ++
    "\n\nPlease provide a well-formatted, friendly report that:\n" ++
    "1. Summarizes the verification result clearly\n" ++
    "2. Explains what was found (or not found)\n" ++
    "3. Provides context about the quote if verified\n" ++
    "4. Suggests next steps if not verified (e.g., checking alternative character names)\n" ++
    "5. Uses emojis and formatting to make it engaging\n" ++
    "6. Includes the confidence level and what it means\n\n" ++
    "Make it informative but easy to understand."

/-- Embedding of the workflow step `generateVerificationReport`: look up
the report agent — throwing `Anime agent not found` when absent, with no
catch anywhere in the workflow — then call its generate function
(modelled as a possibly-throwing text generator) on the assembled
prompt. -/
def generateReportStep (agent : Option (String → Except String String))
    (input : VerifyOutput) : Except String ReportOutput := do
  match agent with
  | none => throw "Anime agent not found"
  | some gen => do
    let text ← gen (buildReportPrompt input)
    pure
      { verified := input.verified, confidence := input.confidence,
        «matches» := input.«matches», report := text }

/-- The four workflow steps composed; the result is an `Except` because
the report step can throw and nothing on the path to the caller catches
it. -/
def workflowRun (quote : String) (character anime : Option String)
    (charF animeF : WfFetch) (agent : Option (String → Except String String)) :
    Except String ReportOutput :=
  let characterQuotes := searchQuotesStep character charF
  let allQuotes := collectQuotesStep characterQuotes anime animeF
  let v := verifyQuoteStep quote allQuotes
  generateReportStep agent
    { quote := quote, verified := v.verified, confidence := v.confidence,
      «matches» := v.«matches», message := v.message,
      character := character, anime := anime }

instance (query cand : String) : Decidable (specExactRule query cand) := by
  unfold specExactRule; infer_instance

instance (query cand : String) : Decidable (specPartRule query cand) := by
  unfold specPartRule; infer_instance

instance (query cand : String) : Decidable (specSimilarRule query cand) := by
  unfold specSimilarRule; infer_instance

/-- The spec's rational word-overlap condition coincides with the
cross-multiplied form used in `classify` (including the empty-union
corner, where both sides are false). -/
lemma spec_similar_rule_iff_classify (query cand : String) :
    specSimilarRule query cand ↔
      (2 * ((splitWs (jsNormalize cand)).toFinset ∩ (splitWs (jsNormalize query)).toFinset).card ≥
          ((splitWs (jsNormalize cand)).toFinset ∪ (splitWs (jsNormalize query)).toFinset).card ∧
        (splitWs (jsNormalize cand)).toFinset.card > 2 ∧
        (splitWs (jsNormalize query)).toFinset.card > 2) := by
  set qw := (splitWs (jsNormalize cand)).toFinset with hqw
  set vw := (splitWs (jsNormalize query)).toFinset with hvw
  unfold specSimilarRule
  rw [← hqw, ← hvw]
  rcases Nat.eq_zero_or_pos (qw ∪ vw).card with h0 | hpos
  · have hq : qw.card = 0 := by
      have hle : qw.card ≤ (qw ∪ vw).card := Finset.card_le_card Finset.subset_union_left
      omega
    constructor
    · rintro ⟨-, h2, -⟩; omega
    · rintro ⟨-, h2, -⟩; omega
  · have hu : (0 : ℚ) < ((qw ∪ vw).card : ℚ) := by exact_mod_cast hpos
    constructor
    · rintro ⟨h1, h2, h3⟩
      refine ⟨?_, h2, h3⟩
      rw [ge_iff_le, le_div_iff₀ hu] at h1
      have hcast : ((qw ∪ vw).card : ℚ) ≤ 2 * ((qw ∩ vw).card : ℚ) := by linarith
      exact_mod_cast hcast
    · rintro ⟨h1, h2, h3⟩
      refine ⟨?_, h2, h3⟩
      rw [ge_iff_le, le_div_iff₀ hu]
      have hcast : ((qw ∪ vw).card : ℚ) ≤ 2 * ((qw ∩ vw).card : ℚ) := by exact_mod_cast h1
      linarith

/-- C2: with both texts lower-cased and trimmed, each candidate receives
exactly one classification by the first applicable of the three rules
(exact equality, substring containment in either direction, word-overlap
ratio at least one half with both word sets larger than 2), a candidate
matching no rule receives none, an exactly-equal candidate is always
classified exact, and a rule-free candidate contributes no entry to the
verify step's match list. -/
theorem matcher_three_tier_classification (query cand : String) :
    (classify (jsNormalize query) cand =
      if specExactRule query cand then some MatchType.exact
      else if specPartRule query cand then some MatchType.part
      else if specSimilarRule query cand then some MatchType.similar
      else none) ∧
    (specExactRule query cand → classify (jsNormalize query) cand = some MatchType.exact) ∧
    (∀ (r : QuoteRecord) (pool : List QuoteRecord),
      classify (jsNormalize query) r.quote = none →
        ∀ m ∈ matchList query pool, m.quote ≠ r.quote) := by
  have hmain : classify (jsNormalize query) cand =
      if specExactRule query cand then some MatchType.exact
      else if specPartRule query cand then some MatchType.part
      else if specSimilarRule query cand then some MatchType.similar
      else none := by
    simp only [classify, specExactRule, specPartRule, spec_similar_rule_iff_classify,
      Bool.or_eq_true]
  refine ⟨hmain, ?_, ?_⟩
  · intro hx
    rw [hmain, if_pos hx]
  · intro r pool hnone m hm hquote
    rcases List.mem_filterMap.mp hm with ⟨r', hr', hsome⟩
    rcases Option.map_eq_some'.mp hsome with ⟨mt, hmt, hment⟩
    have hq' : m.quote = r'.quote := by rw [← hment]
    have hrr : r'.quote = r.quote := by rw [← hq', hquote]
    rw [hrr, hnone] at hmt
    exact Option.noConfusion hmt

/-- The merge loop appends exactly the anime-sourced records whose text
does not occur among the character-sourced texts. -/
lemma collectMerge_eq_append_filter (c a : List QuoteRecord) :
    collectMerge c a =
      c ++ a.filter (fun q => decide (q.quote ∉ c.map (fun r => r.quote))) := by
  unfold collectMerge
  suffices h : ∀ (a acc : List QuoteRecord),
      a.foldl
        (fun allQuotes q =>
          if q.quote ∈ c.map (fun r => r.quote) then allQuotes else allQuotes ++ [q])
        acc =
        acc ++ a.filter (fun q => decide (q.quote ∉ c.map (fun r => r.quote))) by
    exact h a c
  intro a
  induction a with
  | nil => intro acc; simp
  | cons q rest ih =>
    intro acc
    rw [List.foldl_cons, List.filter_cons]
    by_cases h : q.quote ∈ c.map (fun r => r.quote)
    · have hd : (decide (q.quote ∉ List.map (fun r => r.quote) c)) = false := by
        simp [h]
      rw [if_pos h, ih, hd]
      simp
    · have hd : (decide (q.quote ∉ List.map (fun r => r.quote) c)) = true := by
        simp [h]
      rw [if_neg h, ih, hd]
      simp

lemma length_filter_pos_iff {α : Type} (p : α → Bool) (l : List α) :
    0 < (l.filter p).length ↔ ∃ a ∈ l, p a = true := by
  induction l with
  | nil => simp
  | cons a t ih =>
    rw [List.filter_cons]
    by_cases h : p a = true
    · simp [h]
    · rw [if_neg h, ih]
      constructor
      · rintro ⟨b, hb, hpb⟩
        exact ⟨b, List.mem_cons_of_mem a hb, hpb⟩
      · rintro ⟨b, hb, hpb⟩
        rcases List.mem_cons.mp hb with rfl | hb'
        · exact absurd hpb h
        · exact ⟨b, hb', hpb⟩

/-- C1: the verify step's decision chain — any exact classification gives
a verified, high-confidence verdict; no exact but some partial gives
verified, medium; only similar matches give verified, low; no matches
with a non-empty candidate pool gives unverified, high, with the
not-found message; no matches with an empty pool gives unverified,
medium, with the same not-found message. -/
theorem verdict_decision_table (q : String) (allQuotes : List QuoteRecord) :
    ((∃ m ∈ matchList q allQuotes, m.matchType = MatchType.exact) →
      (verifyQuoteStep q allQuotes).verified = true ∧
        (verifyQuoteStep q allQuotes).confidence = Confidence.high) ∧
    ((¬ ∃ m ∈ matchList q allQuotes, m.matchType = MatchType.exact) →
      (∃ m ∈ matchList q allQuotes, m.matchType = MatchType.part) →
      (verifyQuoteStep q allQuotes).verified = true ∧
        (verifyQuoteStep q allQuotes).confidence = Confidence.medium) ∧
    ((¬ ∃ m ∈ matchList q allQuotes, m.matchType = MatchType.exact) →
      (¬ ∃ m ∈ matchList q allQuotes, m.matchType = MatchType.part) →
      matchList q allQuotes ≠ [] →
      (verifyQuoteStep q allQuotes).verified = true ∧
        (verifyQuoteStep q allQuotes).confidence = Confidence.low) ∧
    (matchList q allQuotes = [] → allQuotes ≠ [] →
      (verifyQuoteStep q allQuotes).verified = false ∧
        (verifyQuoteStep q allQuotes).confidence = Confidence.high ∧
        (verifyQuoteStep q allQuotes).message = quoteNotFoundMessage) ∧
    (matchList q allQuotes = [] → allQuotes = [] →
      (verifyQuoteStep q allQuotes).verified = false ∧
        (verifyQuoteStep q allQuotes).confidence = Confidence.medium ∧
        (verifyQuoteStep q allQuotes).message = quoteNotFoundMessage) := by
  refine ⟨?_, ?_, ?_, ?_, ?_⟩
  · intro hex
    have h1 : 0 < ((matchList q allQuotes).filter
        (fun m => m.matchType = MatchType.exact)).length := by
      rw [length_filter_pos_iff]
      simpa using hex
    simp [verifyQuoteStep, h1]
  · intro hnex hpart
    have h1 : ¬ 0 < ((matchList q allQuotes).filter
        (fun m => m.matchType = MatchType.exact)).length := by
      rw [length_filter_pos_iff]
      simpa using hnex
    have h2 : 0 < ((matchList q allQuotes).filter
        (fun m => m.matchType = MatchType.part)).length := by
      rw [length_filter_pos_iff]
      simpa using hpart
    simp [verifyQuoteStep, h1, h2]
  · intro hnex hnpart hne
    have h1 : ¬ 0 < ((matchList q allQuotes).filter
        (fun m => m.matchType = MatchType.exact)).length := by
      rw [length_filter_pos_iff]
      simpa using hnex
    have h2 : ¬ 0 < ((matchList q allQuotes).filter
        (fun m => m.matchType = MatchType.part)).length := by
      rw [length_filter_pos_iff]
      simpa using hnpart
    have h3 : 0 < (matchList q allQuotes).length := List.length_pos.mpr hne
    simp [verifyQuoteStep, h1, h2, h3]
  · intro hms hpool
    have h3 : 0 < allQuotes.length := List.length_pos.mpr hpool
    simp [verifyQuoteStep, hms, h3]
  · intro hms hpool
    subst hpool
    simp [verifyQuoteStep, hms]

/-- Witness for C1: all five branches of the decision table at concrete
inputs. -/
theorem verdict_decision_table_witness :
    ((verifyQuoteStep "Hello" [⟨"  HELLO ", "A", "B"⟩]).verified = true ∧
      (verifyQuoteStep "Hello" [⟨"  HELLO ", "A", "B"⟩]).confidence = Confidence.high) ∧
    ((verifyQuoteStep "Hello" [⟨"hello world", "A", "B"⟩]).verified = true ∧
      (verifyQuoteStep "Hello" [⟨"hello world", "A", "B"⟩]).confidence = Confidence.medium) ∧
    ((verifyQuoteStep "a b c d" [⟨"a b c x", "A", "B"⟩]).verified = true ∧
      (verifyQuoteStep "a b c d" [⟨"a b c x", "A", "B"⟩]).confidence = Confidence.low) ∧
    ((verifyQuoteStep "zzz qqq www" [⟨"hello", "A", "B"⟩]).verified = false ∧
      (verifyQuoteStep "zzz qqq www" [⟨"hello", "A", "B"⟩]).confidence = Confidence.high ∧
      (verifyQuoteStep "zzz qqq www" [⟨"hello", "A", "B"⟩]).message = quoteNotFoundMessage) ∧
    ((verifyQuoteStep "x" []).verified = false ∧
      (verifyQuoteStep "x" []).confidence = Confidence.medium ∧
      (verifyQuoteStep "x" []).message = quoteNotFoundMessage) := by
  refine ⟨?_, ?_, ?_, ?_, ?_⟩
  · exact (verdict_decision_table "Hello" [⟨"  HELLO ", "A", "B"⟩]).1 (by decide)
  · exact (verdict_decision_table "Hello" [⟨"hello world", "A", "B"⟩]).2.1
      (by decide) (by decide)
  · exact (verdict_decision_table "a b c d" [⟨"a b c x", "A", "B"⟩]).2.2.1
      (by decide) (by decide) (by decide)
  · exact (verdict_decision_table "zzz qqq www" [⟨"hello", "A", "B"⟩]).2.2.2.1
      (by decide) (by decide)
  · exact (verdict_decision_table "x" []).2.2.2.2 (by decide) rfl

/-- Merging into an empty character-sourced list keeps every anime-sourced
record in order. -/
lemma collectMerge_nil (rs : List QuoteRecord) : collectMerge [] rs = rs := by
  rw [collectMerge_eq_append_filter]
  simp

/-- C3 counterexample: merging two records with identical text into an
empty character-sourced list keeps both copies (the membership set is
computed once from the character-sourced list and never updated during
the loop), so the merged pool violates pairwise text-distinctness — the
`Nodup` of the text list is exactly the spec's `∀ i≠j: pool[i].text ≠
pool[j].text`. -/
theorem collect_dedup_counterexample :
    ¬ ((collectMerge [] [⟨"hello", "A", "B"⟩, ⟨"hello", "A", "B"⟩]).map
        (fun r => r.quote)).Nodup := by
  decide

/-- C3 amended: the merge only deduplicates anime-sourced records against
the character-sourced texts; the pool is pairwise text-distinct provided
each source list is itself text-distinct. -/
theorem collect_dedup_amended (c a : List QuoteRecord)
    (hc : (c.map (fun r => r.quote)).Nodup)
    (ha : (a.map (fun r => r.quote)).Nodup) :
    ((collectMerge c a).map (fun r => r.quote)).Nodup := by
  rw [collectMerge_eq_append_filter, List.map_append, List.nodup_append]
  refine ⟨hc, ?_, ?_⟩
  · exact ha.sublist ((List.filter_sublist a).map (fun r => r.quote))
  · intro x hx hx2
    rcases List.mem_map.mp hx2 with ⟨y, hy, hyx⟩
    have hyf := List.mem_filter.mp hy
    have hnot : y.quote ∉ c.map (fun r => r.quote) := of_decide_eq_true hyf.2
    rw [hyx] at hnot
    exact hnot hx

/-- Witness for the amended C3 at concrete text-distinct source lists. -/
theorem collect_dedup_amended_witness :
    ((collectMerge [⟨"a", "x", "y"⟩] [⟨"b", "x", "y"⟩, ⟨"a", "z", "w"⟩]).map
        (fun r => r.quote)).Nodup :=
  collect_dedup_amended [⟨"a", "x", "y"⟩] [⟨"b", "x", "y"⟩, ⟨"a", "z", "w"⟩]
    (by decide) (by decide)

/-- C4 (amended to the workflow's verify step): the returned match list is
the first five entries of the full match list in discovery order, hence
never more than five. -/
theorem workflow_matches_cap (q : String) (allQuotes : List QuoteRecord) :
    (verifyQuoteStep q allQuotes).«matches» = (matchList q allQuotes).take 5 ∧
    (verifyQuoteStep q allQuotes).«matches».length ≤ 5 := by
  have h : (verifyQuoteStep q allQuotes).«matches» = (matchList q allQuotes).take 5 := by
    simp only [verifyQuoteStep]
    split_ifs <;> rfl
  refine ⟨h, ?_⟩
  rw [h]
  exact List.length_take_le 5 (matchList q allQuotes)

/-- C6: a failed character lookup (thrown or non-2xx) contributes zero
records, a failed anime lookup leaves the character-sourced results
untouched, and after a failed character lookup a successful anime lookup
is still collected in full. -/
theorem lookup_failure_isolated (character anime : Option String) (f g : WfFetch)
    (rs : List QuoteRecord) (hf : f.failed) (hg : g.failed) :
    searchQuotesStep character f = [] ∧
    collectQuotesStep rs anime g = rs ∧
    (optTruthy anime = true →
      collectQuotesStep (searchQuotesStep character f) anime (WfFetch.ok rs) = rs) := by
  have h1 : searchQuotesStep character f = [] := by
    cases f with
    | netThrow => simp [searchQuotesStep]
    | notOk => simp [searchQuotesStep]
    | ok records => exact hf.elim
  refine ⟨h1, ?_, ?_⟩
  · cases g with
    | netThrow => simp [collectQuotesStep]
    | notOk => simp [collectQuotesStep]
    | ok records => exact hg.elim
  · intro hanime
    rw [h1]
    simp [collectQuotesStep, hanime, collectMerge_nil]

/-- Witness for C6 at concrete inputs: a thrown character lookup and a
non-2xx anime lookup. -/
theorem lookup_failure_isolated_witness :
    searchQuotesStep (some "Luffy") WfFetch.netThrow = [] ∧
    collectQuotesStep [⟨"q", "a", "c"⟩] (some "One Piece") WfFetch.notOk = [⟨"q", "a", "c"⟩] ∧
    (optTruthy (some "One Piece") = true →
      collectQuotesStep (searchQuotesStep (some "Luffy") WfFetch.netThrow) (some "One Piece")
        (WfFetch.ok [⟨"q", "a", "c"⟩]) = [⟨"q", "a", "c"⟩]) :=
  lookup_failure_isolated (some "Luffy") (some "One Piece") WfFetch.netThrow WfFetch.notOk
    [⟨"q", "a", "c"⟩] trivial trivial

/-- C4 counterexample: with a quote text and six substring-matching
candidates gathered by character, the verify tool's verdict carries all
six matches — the five-entry cap of the claim does not hold for the
tool. -/
theorem tool_matches_uncapped_counterexample :
    ¬ ((verifyTool ⟨some "a", some "Luffy", none⟩
        (FetchOutcome.ok (Json.jarr
          [Json.jobj [("quote", Json.jstr "xa1"), ("anime", Json.jstr "A"),
            ("character", Json.jstr "C")],
          Json.jobj [("quote", Json.jstr "xa2"), ("anime", Json.jstr "A"),
            ("character", Json.jstr "C")],
          Json.jobj [("quote", Json.jstr "xa3"), ("anime", Json.jstr "A"),
            ("character", Json.jstr "C")],
          Json.jobj [("quote", Json.jstr "xa4"), ("anime", Json.jstr "A"),
            ("character", Json.jstr "C")],
          Json.jobj [("quote", Json.jstr "xa5"), ("anime", Json.jstr "A"),
            ("character", Json.jstr "C")],
          Json.jobj [("quote", Json.jstr "xa6"), ("anime", Json.jstr "A"),
            ("character", Json.jstr "C")]]))
        FetchOutcome.notOk).«matches».length ≤ 5) := by
  decide

/-- C5 counterexample: with no quote text and six gathered records, the
verify tool returns six matches — more than the claim's "up to the first
5" allows (the code slices at ten). -/
theorem no_quote_first_five_counterexample :
    ¬ ((verifyTool ⟨none, some "Naruto Uzumaki", none⟩
        (FetchOutcome.ok (Json.jarr
          [Json.jobj [("quote", Json.jstr "n1"), ("anime", Json.jstr "N"),
            ("character", Json.jstr "C")],
          Json.jobj [("quote", Json.jstr "n2"), ("anime", Json.jstr "N"),
            ("character", Json.jstr "C")],
          Json.jobj [("quote", Json.jstr "n3"), ("anime", Json.jstr "N"),
            ("character", Json.jstr "C")],
          Json.jobj [("quote", Json.jstr "n4"), ("anime", Json.jstr "N"),
            ("character", Json.jstr "C")],
          Json.jobj [("quote", Json.jstr "n5"), ("anime", Json.jstr "N"),
            ("character", Json.jstr "C")],
          Json.jobj [("quote", Json.jstr "n6"), ("anime", Json.jstr "N"),
            ("character", Json.jstr "C")]]))
        FetchOutcome.notOk).«matches».length ≤ 5) := by
  decide

/-- C5 (amended: the no-quote branch returns up to the first ten records
of the pool, not five): with no quote text, some character or anime, and
a non-empty successfully gathered pool, the verdict is verified at
medium confidence with the found-N message and the first ten records. -/
theorem no_quote_branch (ctx : VerifyContext) (charF animeF : FetchOutcome)
    (quotes : List ToolQuote)
    (hq : optTruthy ctx.quote = false)
    (hca : optTruthy ctx.character = true ∨ optTruthy ctx.anime = true)
    (hg : gatherQuotes ctx charF animeF = .ok quotes)
    (hne : quotes ≠ []) :
    verifyTool ctx charF animeF =
      { verified := true, confidence := Confidence.medium,
        «matches» := (quotes.take 10).map (fun q => ToolQuote.mk q.quote q.anime q.character),
        message := "Found " ++ toString quotes.length ++
          " quote(s) for the specified criteria." } := by
  have hguard : (!optTruthy ctx.quote && !optTruthy ctx.character &&
      !optTruthy ctx.anime) = false := by
    rcases hca with h | h <;> simp [h]
  have hlen : 0 < quotes.length := List.length_pos.mpr hne
  unfold verifyTool
  rw [hguard]
  simp only [Bool.false_eq_true, if_false]
  unfold runToolPipeline
  rw [hg]
  simp only [Bind.bind, Except.bind]
  unfold composeToolVerdict
  rw [hq]
  simp only [Bool.false_eq_true, if_false]
  rw [if_pos hlen]
  rfl

/-- Witness for the amended C5 at a concrete two-record pool gathered by
character. -/
theorem no_quote_branch_witness :
    verifyTool ⟨none, some "Naruto", none⟩
      (FetchOutcome.ok (Json.jarr
        [Json.jobj [("quote", Json.jstr "n1"), ("anime", Json.jstr "N"),
          ("character", Json.jstr "C")],
        Json.jobj [("quote", Json.jstr "n2"), ("anime", Json.jstr "N"),
          ("character", Json.jstr "C")]]))
      FetchOutcome.notOk =
      { verified := true, confidence := Confidence.medium,
        «matches» := (([⟨.json (.jstr "n1"), .json (.jstr "N"), .json (.jstr "C")⟩,
          ⟨.json (.jstr "n2"), .json (.jstr "N"), .json (.jstr "C")⟩] :
            List ToolQuote).take 10).map
          (fun q => ToolQuote.mk q.quote q.anime q.character),
        message := "Found " ++
          toString ([⟨.json (.jstr "n1"), .json (.jstr "N"), .json (.jstr "C")⟩,
            ⟨.json (.jstr "n2"), .json (.jstr "N"), .json (.jstr "C")⟩] :
              List ToolQuote).length ++
          " quote(s) for the specified criteria." } :=
  no_quote_branch ⟨none, some "Naruto", none⟩
    (FetchOutcome.ok (Json.jarr
      [Json.jobj [("quote", Json.jstr "n1"), ("anime", Json.jstr "N"),
        ("character", Json.jstr "C")],
      Json.jobj [("quote", Json.jstr "n2"), ("anime", Json.jstr "N"),
        ("character", Json.jstr "C")]]))
    FetchOutcome.notOk
    [⟨.json (.jstr "n1"), .json (.jstr "N"), .json (.jstr "C")⟩,
      ⟨.json (.jstr "n2"), .json (.jstr "N"), .json (.jstr "C")⟩]
    rfl (Or.inl rfl) rfl (by simp)

/-- C7 counterexample: a bare-array response item whose `anime` and
`character` fields are empty strings passes them through verbatim — the
produced record carries empty (falsy) strings, not the `Unknown`
sentinel. -/
theorem unknown_sentinel_counterexample :
    parseApiResponse (.json (Json.jarr [Json.jobj
        [("quote", Json.jstr "hi"), ("anime", Json.jstr ""), ("character", Json.jstr "")]])) =
      .ok [⟨.json (.jstr "hi"), .json (.jstr ""), .json (.jstr "")⟩] ∧
    truthy (.json (.jstr "")) = false := by
  exact ⟨rfl, rfl⟩

/-- `a || b` is truthy exactly when one of its operands is. -/
lemma truthy_jsOr (a b : JVal) : truthy (jsOr a b) = (truthy a || truthy b) := by
  unfold jsOr
  by_cases h : truthy a = true
  · simp [h]
  · have h' : truthy a = false := by
      cases hb : truthy a
      · rfl
      · exact absurd hb h
    simp [h']

/-- C7 (amended: only the wrapper branch of the verify tool's parser, and
only its name fields): every record it produces has truthy `anime` and
`character` fields — each `||` chain ends in the `'Unknown'` literal —
hence never null, undefined, or the empty string; no such guarantee
exists for the quote text, for plain-string fields of the bare-array
branch, or in the workflow's search step. -/
theorem wrapper_names_truthy (item : Json) (r : ToolQuote)
    (h : parseWrapperItem item = .ok r) :
    truthy r.anime = true ∧ truthy r.character = true := by
  unfold parseWrapperItem at h
  cases hc : getProp (.json item) "content" with
  | error e => rw [hc] at h; simp [Bind.bind, Except.bind] at h
  | ok content =>
    cases ha : getProp (.json item) "anime" with
    | error e => rw [hc, ha] at h; simp [Bind.bind, Except.bind] at h
    | ok animeF =>
      cases hch : getProp (.json item) "character" with
      | error e => rw [hc, ha, hch] at h; simp [Bind.bind, Except.bind] at h
      | ok characterF =>
        rw [hc, ha, hch] at h
        simp only [Bind.bind, Except.bind, pure, Except.pure, Except.ok.injEq] at h
        subst h
        constructor
        · show truthy (jsOr (optChain animeF "name")
            (jsOr (optChain animeF "altName") (.json (.jstr "Unknown")))) = true
          rw [truthy_jsOr, truthy_jsOr]
          simp [truthy]
        · show truthy (jsOr (optChain characterF "name") (.json (.jstr "Unknown"))) = true
          rw [truthy_jsOr]
          simp [truthy]

/-- Witness for the amended C7: the empty object resolves no names, and
both fields degrade to the truthy `Unknown` sentinel. -/
theorem wrapper_names_truthy_witness :
    truthy (ToolQuote.mk JVal.undefined (JVal.json (Json.jstr "Unknown"))
      (JVal.json (Json.jstr "Unknown"))).anime = true ∧
    truthy (ToolQuote.mk JVal.undefined (JVal.json (Json.jstr "Unknown"))
      (JVal.json (Json.jstr "Unknown"))).character = true :=
  wrapper_names_truthy (Json.jobj [])
    (ToolQuote.mk JVal.undefined (JVal.json (Json.jstr "Unknown"))
      (JVal.json (Json.jstr "Unknown"))) rfl

/-- C8 counterexample: on the same unrecognized body (a bare number), the
by-character tool's parser throws the visible format error but the
verify tool's `parseApiResponse` silently yields the empty list — the
claim's universal "raises a visible error" fails for the latter. -/
theorem unexpected_shape_silent_counterexample :
    parseApiResponse (.json (Json.jnum 5)) = .ok [] ∧
    charToolParse (Json.jnum 5) = .error "Unexpected API response format" :=
  ⟨rfl, rfl⟩

/-- Plain property access coincides with optional chaining on any non-null
JSON base. -/
lemma getProp_ok (body : Json) (name : String) (hb : body ≠ Json.jnull) :
    getProp (.json body) name = .ok (optChain (.json body) name) := by
  cases body with
  | jnull => exact absurd rfl hb
  | jbool b => rfl
  | jnum n => rfl
  | jstr s => rfl
  | jarr items => rfl
  | jobj fields =>
    simp only [getProp, optChain]
    cases fields.lookup name <;> rfl

/-- C8 (amended): on a body matching none of the known shapes, the
by-character tool's parser raises the visible
`Unexpected API response format` error, while the verify tool's
`parseApiResponse` silently returns the empty candidate list. -/
theorem unknown_shape_dichotomy (body : Json) (h : unknownShape body = true) :
    charToolParse body = .error "Unexpected API response format" ∧
    parseApiResponse (.json body) = .ok [] := by
  constructor
  · cases body with
    | jnull => simp [unknownShape] at h
    | jarr items => simp [unknownShape] at h
    | jbool b => rfl
    | jnum n => rfl
    | jstr s => rfl
    | jobj fields =>
      have hs := getProp_ok (Json.jobj fields) "status" (by simp)
      have hd := getProp_ok (Json.jobj fields) "data" (by simp)
      have h' : (truthy (optChain (.json (Json.jobj fields)) "status") &&
          truthy (optChain (.json (Json.jobj fields)) "data")) = false := by
        simp only [unknownShape] at h
        cases hx : (truthy (optChain (.json (Json.jobj fields)) "status") &&
            truthy (optChain (.json (Json.jobj fields)) "data")) with
        | false => rfl
        | true => rw [hx] at h; simp at h
      unfold charToolParse
      rw [hs]
      simp only [Bind.bind, Except.bind]
      by_cases hts : truthy (optChain (.json (Json.jobj fields)) "status") = true
      · rw [if_pos hts, hd]
        simp only [Bind.bind, Except.bind]
        have htd : truthy (optChain (.json (Json.jobj fields)) "data") = false := by
          rw [hts] at h'
          simpa using h'
        rw [if_neg (by simp [htd])]
      · rw [if_neg hts]
  · cases body with
    | jnull => simp [unknownShape] at h
    | jarr items => simp [unknownShape] at h
    | jbool b => simp [parseApiResponse, isObjectType]
    | jnum n => simp [parseApiResponse, isObjectType]
    | jstr s => simp [parseApiResponse, isObjectType]
    | jobj fields =>
      have h' : (truthy (optChain (.json (Json.jobj fields)) "status") &&
          truthy (optChain (.json (Json.jobj fields)) "data")) = false := by
        simp only [unknownShape] at h
        cases hx : (truthy (optChain (.json (Json.jobj fields)) "status") &&
            truthy (optChain (.json (Json.jobj fields)) "data")) with
        | false => rfl
        | true => rw [hx] at h; simp at h
      rcases Bool.and_eq_false_iff.mp h' with h'' | h''
      · simp [parseApiResponse, h'']
      · simp [parseApiResponse, h'']

/-- Witness for the amended C8 at a concrete unknown shape: an object with
a falsy `status`. -/
theorem unknown_shape_dichotomy_witness :
    charToolParse (Json.jobj [("status", Json.jstr "")]) =
      .error "Unexpected API response format" ∧
    parseApiResponse (.json (Json.jobj [("status", Json.jstr "")])) = .ok [] :=
  unknown_shape_dichotomy (Json.jobj [("status", Json.jstr "")]) rfl

/-- C9 counterexample: with the report agent missing, the workflow's
report step throws `Anime agent not found`, and no catch on the path to
the caller maps it to a verdict — the pipeline's result is the escaped
exception, with no `verified=false`/`low`/`Error during verification`
mapping. -/
theorem workflow_exception_escapes_counterexample :
    workflowRun "I am justice" (some "Light Yagami") none WfFetch.notOk WfFetch.notOk none =
      Except.error "Anime agent not found" := by
  rfl

/-- C9 (amended: only the verify tool has the boundary catch): with at
least one input supplied, any error thrown inside the tool's try block
is caught and mapped to the unverified, low-confidence, empty-match
verdict whose message is `Error during verification: ` followed by the
thrown message. -/
theorem tool_error_boundary (ctx : VerifyContext) (charF animeF : FetchOutcome) (e : String)
    (hin : (optTruthy ctx.quote || optTruthy ctx.character || optTruthy ctx.anime) = true)
    (herr : runToolPipeline ctx charF animeF = .error e) :
    verifyTool ctx charF animeF =
      { verified := false, confidence := Confidence.low, «matches» := [],
        message := "Error during verification: " ++ e } := by
  have hguard : (!optTruthy ctx.quote && !optTruthy ctx.character &&
      !optTruthy ctx.anime) = false := by
    cases h1 : optTruthy ctx.quote <;> cases h2 : optTruthy ctx.character <;>
      cases h3 : optTruthy ctx.anime <;> simp_all
  unfold verifyTool
  rw [hguard]
  simp only [Bool.false_eq_true, if_false]
  rw [herr]

/-- Witness for the amended C9: a thrown character fetch is mapped to the
error verdict. -/
theorem tool_error_boundary_witness :
    verifyTool ⟨some "q", some "Luffy", none⟩ (FetchOutcome.netThrow "network down")
      FetchOutcome.notOk =
      { verified := false, confidence := Confidence.low, «matches» := [],
        message := "Error during verification: " ++ "network down" } :=
  tool_error_boundary ⟨some "q", some "Luffy", none⟩ (FetchOutcome.netThrow "network down")
    FetchOutcome.notOk "network down" rfl rfl

/-- A successful verdict composition satisfies the verified-iff-matches
invariant. -/
lemma composeToolVerdict_ok_iff (ctx : VerifyContext) (quotes : List ToolQuote)
    (v : ToolVerdict) (h : composeToolVerdict ctx quotes = .ok v) :
    (v.verified = true ↔ v.«matches» ≠ []) := by
  simp only [composeToolVerdict] at h
  by_cases hq : optTruthy ctx.quote = true
  · rw [if_pos hq] at h
    cases hf : filterE (toolMatchPred (jsNormalize (ctx.quote.getD ""))) quotes with
    | error e => rw [hf] at h; simp [Bind.bind, Except.bind] at h
    | ok matching =>
      rw [hf] at h
      simp only [Bind.bind, Except.bind] at h
      by_cases hm : matching.length > 0
      · rw [if_pos hm] at h
        simp only [pure, Except.pure, Except.ok.injEq] at h
        subst h
        have hne : matching ≠ [] := List.length_pos.mp hm
        simp [hne]
      · rw [if_neg hm] at h
        simp only [pure, Except.pure, Except.ok.injEq] at h
        subst h
        simp [toolNotFound]
  · rw [if_neg hq] at h
    by_cases hl : quotes.length > 0
    · rw [if_pos hl] at h
      simp only [pure, Except.pure, Except.ok.injEq] at h
      subst h
      have hne : quotes ≠ [] := List.length_pos.mp hl
      have htk : quotes.take 10 ≠ [] := by
        simp [List.take_eq_nil_iff, hne]
      simp [htk]
    · rw [if_neg hl] at h
      simp only [pure, Except.pure, Except.ok.injEq] at h
      subst h
      simp [toolNotFound]

/-- C10: in both the workflow's verify step and the verify tool, a verdict
is verified exactly when its match list is non-empty; in particular
every unverified verdict carries an empty match list. -/
theorem verified_iff_matches (q : String) (allQuotes : List QuoteRecord)
    (ctx : VerifyContext) (charF animeF : FetchOutcome) :
    ((verifyQuoteStep q allQuotes).verified = true ↔
      (verifyQuoteStep q allQuotes).«matches» ≠ []) ∧
    ((verifyTool ctx charF animeF).verified = true ↔
      (verifyTool ctx charF animeF).«matches» ≠ []) := by
  constructor
  · simp only [verifyQuoteStep]
    split_ifs with h1 h2 h3 h4
    · have hms : matchList q allQuotes ≠ [] := by
        intro hnil
        rw [hnil] at h1
        simp at h1
      simp [List.take_eq_nil_iff, hms]
    · have hms : matchList q allQuotes ≠ [] := by
        intro hnil
        rw [hnil] at h2
        simp at h2
      simp [List.take_eq_nil_iff, hms]
    · have hms : matchList q allQuotes ≠ [] := List.length_pos.mp h3
      simp [List.take_eq_nil_iff, hms]
    · have hms : matchList q allQuotes = [] := by
        have h0 : (matchList q allQuotes).length = 0 := Nat.eq_zero_of_not_pos h3
        exact List.eq_nil_of_length_eq_zero h0
      simp [hms]
    · have hms : matchList q allQuotes = [] := by
        have h0 : (matchList q allQuotes).length = 0 := Nat.eq_zero_of_not_pos h3
        exact List.eq_nil_of_length_eq_zero h0
      simp [hms]
  · unfold verifyTool
    split_ifs with hg
    · simp
    · cases hrun : runToolPipeline ctx charF animeF with
      | error e => simp
      | ok v =>
        have hv : ∃ quotes, composeToolVerdict ctx quotes = .ok v := by
          unfold runToolPipeline at hrun
          cases hgq : gatherQuotes ctx charF animeF with
          | error e2 => rw [hgq] at hrun; simp [Bind.bind, Except.bind] at hrun
          | ok quotes =>
            rw [hgq] at hrun
            simp only [Bind.bind, Except.bind] at hrun
            exact ⟨quotes, hrun⟩
        rcases hv with ⟨quotes, hcomp⟩
        exact composeToolVerdict_ok_iff ctx quotes v hcomp

/-- Witness for C10 at concrete inputs for both implementations. -/
theorem verified_iff_matches_witness :
    ((verifyQuoteStep "x" []).verified = true ↔
      (verifyQuoteStep "x" []).«matches» ≠ []) ∧
    ((verifyTool ⟨none, none, none⟩ FetchOutcome.notOk FetchOutcome.notOk).verified = true ↔
      (verifyTool ⟨none, none, none⟩ FetchOutcome.notOk FetchOutcome.notOk).«matches» ≠ []) :=
  verified_iff_matches "x" [] ⟨none, none, none⟩ FetchOutcome.notOk FetchOutcome.notOk

/-- Witness for C2 at a concrete query and candidate. -/
theorem matcher_three_tier_classification_witness :
    (classify (jsNormalize "The Quick") "  the quick " =
      if specExactRule "The Quick" "  the quick " then some MatchType.exact
      else if specPartRule "The Quick" "  the quick " then some MatchType.part
      else if specSimilarRule "The Quick" "  the quick " then some MatchType.similar
      else none) ∧
    (specExactRule "The Quick" "  the quick " →
      classify (jsNormalize "The Quick") "  the quick " = some MatchType.exact) ∧
    (∀ (r : QuoteRecord) (pool : List QuoteRecord),
      classify (jsNormalize "The Quick") r.quote = none →
        ∀ m ∈ matchList "The Quick" pool, m.quote ≠ r.quote) :=
  matcher_three_tier_classification "The Quick" "  the quick "

end DooshenStudy
